import Mathlib

/-!
Verification development for the ShogiBot move/drop legality engine.

Shallow embedding of the relevant source modules:
  - `boards/util.py`  (classes `InvalidDroppingUtils`, `MovementUtils`, `CheckmateUtils`)
  - `boards/board.py` (class `ShogiBoard`: `perform_move`, `perform_drop`)
  - `pieces/base.py`  (`MovementBaseline`, `BasePiece`)
  - `const/gameplay.py` (`Player`)
  - `errors/gameplay.py` (the `GameplayException` hierarchy)

Conventions of the embedding:
  - Python integers are `Int`; Python float step counts (results of `/` true
    division) are `Rat` (exact; for displacements and baseline components in
    the ranges exercised here IEEE division is exact enough that float
    equality and order coincide with the rational ones).
  - Mutation is explicit state passing; a Python method that can raise
    returns `Except PyExc _` (and, when it mutates, also the updated state).
  - Several internal calls in the source do not match the signature of the
    callee (missing required arguments, or unexpected keyword arguments).
    In Python such a call raises `TypeError` at the call site, before the
    callee body runs.  The embedding models this faithfully with the
    `PyExc.typeError` outcome at the exact program point of the bad call;
    code after such a call in the same body is unreachable and is therefore
    not re-modelled.  Each such point is documented where it occurs.
  - Cosmetic name fields of `BasePiece` (English/Kanji names and the like)
    are not consulted by any of the verified code paths and are omitted
    from the `Piece` structure.
-/

/-- Embeds `const/gameplay.py`: `class Player(Flag)` with members
`Senior = False` and `Junior = True`.  Only equality and the complement
`~` (`Player.opp`) are used by the verified code. -/
inductive Player where
  | senior : Player
  | junior : Player
deriving DecidableEq, Repr

/-- Embeds the Python `~` complement on the two-valued `Player` flag:
`~Junior = Senior` and `~Senior = Junior`. -/
def Player.opp : Player → Player
  | Player.senior => Player.junior
  | Player.junior => Player.senior

/-- Embeds `pieces/base.py`: `class MovementBaseline` with fields
`x_per_step`, `y_per_step`, `step_limit`, `bypass_pieces`. -/
structure MovementBaseline where
  x_per_step : Int
  y_per_step : Int
  step_limit : Bool
  bypass_pieces : Bool
deriving DecidableEq, Repr

/-- The concrete Python subclass of `BasePiece` a piece was constructed
from; the verified code consults it only through `isinstance(_, PawnPiece)`
and `isinstance(_, KingPiece)` checks. -/
inductive PieceKind where
  | pawn | king | rook | bishop | gold | silver | knight | lance
deriving DecidableEq, Repr

/-- Embeds `pieces/base.py`: `class BasePiece` (cosmetic name fields
omitted, see the module comment).  `player` is `None` until `set_player`
runs, hence `Option Player`. -/
structure Piece where
  id : Nat
  kind : PieceKind
  promotable : Bool
  is_promoted : Bool
  moves : List MovementBaseline
  promoted_moves : List MovementBaseline
  player : Option Player
deriving DecidableEq, Repr

/-- Embeds the `moves_in_use` attribute of `BasePiece`: the constructor
sets it to `moves` (with `is_promoted = False`), and `promote` / `demote`
switch it to `promoted_moves` / `moves` exactly when they flip
`is_promoted`, so it always aliases the list selected by `is_promoted`. -/
def Piece.moves_in_use (p : Piece) : List MovementBaseline :=
  if p.is_promoted then p.promoted_moves else p.moves

/-- Embeds `BasePiece.promote`: a no-op unless `promotable` and not yet
promoted, else flips `is_promoted` (and with it `moves_in_use`). -/
def Piece.promote (p : Piece) : Piece :=
  if p.promotable then
    if p.is_promoted then p else { p with is_promoted := true }
  else p

/-- Embeds the point-of-view coefficient computed identically at the top of
`check_for_stuck_piece`, `is_valid_pathing` and `is_blocked`:
`1 if piece.player == board_black else -1`.  `board_black` is the value of
`self.black` at the call site, hence an `Option Player` like `player`
(Python `None == None` is `True`, which the `=` here reproduces). -/
def povOf (player : Option Player) (board_black : Option Player) : Int :=
  if player = board_black then 1 else -1

/-- The grid `self.board`: a `dim × dim` matrix of optional pieces. -/
def Board : Type := List (List (Option Piece))

instance : DecidableEq Board := by
  unfold Board
  infer_instance

instance : Repr Board := by
  unfold Board
  infer_instance

/-- Reads `board_matrix[x][y]`.  Every call site modelled here passes
indices already checked (by the caller or by loop bounds) to lie within
`0..dim-1`, so the clamping `Int.toNat` and the `none` fallback are never
exercised with out-of-range values in the verified paths. -/
def Board.cell (bm : Board) (x y : Int) : Option Piece :=
  match List.get? bm x.toNat with
  | some row =>
      match List.get? row y.toNat with
      | some c => c
      | none => none
  | none => none

/-- Writes `board_matrix[x][y] = v` (same in-range discipline as
`Board.cell`). -/
def Board.setCell (bm : Board) (x y : Int) (v : Option Piece) : Board :=
  match List.get? bm x.toNat with
  | some row => List.set bm x.toNat (List.set row y.toNat v)
  | none => bm

/-- Embeds the `GameplayException` subclass hierarchy of
`errors/gameplay.py` (one constructor per class used by the verified
code; constructor payloads that only feed the error message are dropped). -/
inductive GPErr where
  | gameNotInitiated
  | gameEnded
  | incorrectPlayer
  | outOfBound
  | emptyCell
  | pieceNotOwned
  | notPromotable
  | notInPromotionZone
  | noPathingFound
  | blockedPathing
  | occupiedCell
  | droppingPieceNotExisted
  | invalidDrop (violated_rule : String)
deriving DecidableEq, Repr

/-- A Python exception as seen by the `except GameplayException` handlers
in `ShogiBoard.perform_move` / `perform_drop`: either some
`GameplayException` subclass, or one of the built-in exceptions the code
can actually raise (`TypeError` from a call that does not match the
callee signature, `ValueError` from unpacking a list of the wrong length,
plain `Exception` from the dead `else` branches). -/
inductive PyExc where
  | gp : GPErr → PyExc
  | typeError : PyExc
  | valueError : PyExc
  | exc : PyExc
deriving DecidableEq, Repr

/-- `True` exactly for the exceptions matched by `except
GameplayException`. -/
def PyExc.isGameplay : PyExc → Bool
  | PyExc.gp _ => true
  | _ => false

/-- Embeds the body of the `for baseline in piece.moves_in_use` loop of
`MovementUtils.is_valid_pathing` for a single baseline: `none` when the
loop `continue`s past this baseline, `some s` when the loop would `return
(baseline, s)`.  `dx`, `dy` are the displacement components and `pov` the
point-of-view coefficient.  The two optional per-axis quotients mirror the
`steps_required` pair (Python `None` as `Option.none`); the flattening
`steps_required[0] or steps_required[1]` makes a `0.0` first component
falsy, which the `if v = 0 then qy else some v` branch reproduces. -/
def baselineSteps (pov : Int) (dx dy : Int) (b : MovementBaseline) : Option Rat :=
  if dx ≠ 0 ∧ b.x_per_step = 0 then none
  else if dy ≠ 0 ∧ b.y_per_step = 0 then none
  else
    let qx : Option Rat :=
      if b.x_per_step = 0 then none
      else some ((dx : Rat) / ((b.x_per_step * pov : Int) : Rat))
    let qy : Option Rat :=
      if b.y_per_step = 0 then none
      else some ((dy : Rat) / ((b.y_per_step * pov : Int) : Rat))
    if qx.isSome ∧ qy.isSome ∧ qx ≠ qy then none
    else
      let f : Option Rat :=
        match qx with
        | some v => if v = 0 then qy else some v
        | none => qy
      match f with
      | none => none
      | some s =>
          if s < 0 then none
          else if 1 < s ∧ b.step_limit then none
          else some s

/-- Embeds `MovementUtils.is_valid_pathing`: first baseline (in list
order) whose loop body returns, with its step count, else `None`. -/
def is_valid_pathing (piece : Piece) (board_black : Option Player)
    (initial_position final_position : Int × Int) :
    Option (MovementBaseline × Rat) :=
  let pov := povOf piece.player board_black
  let dx := final_position.1 - initial_position.1
  let dy := final_position.2 - initial_position.2
  piece.moves_in_use.findSome? fun b =>
    (baselineSteps pov dx dy b).map fun s => (b, s)

/-- Embeds `InvalidDroppingUtils.check_for_stuck_piece`.  The loop returns
`False` as soon as one baseline's minimally shifted position has its x
coordinate in bounds OR its y coordinate in bounds (the source tests the
two axes with `or`), and returns `True` only after every baseline failed
that disjunction. -/
def check_for_stuck_piece (piece : Piece) (board_black : Option Player)
    (board_dim : Int) (position : Int × Int) : Bool :=
  let pov := povOf piece.player board_black
  piece.moves_in_use.all fun b =>
    let mx := position.1 + b.x_per_step * pov
    let my := position.2 + b.y_per_step * pov
    ¬(0 ≤ mx ∧ mx < board_dim) ∧ ¬(0 ≤ my ∧ my < board_dim)

/-- Embeds `InvalidDroppingUtils.check_for_nifu`: scans the whole column
`position[1]` for a cell holding a `PawnPiece` whose owner equals the
owner of the (unpromoted) dropped piece. -/
def check_for_nifu (piece : Piece) (board_dim : Nat) (bm : Board)
    (position : Int × Int) : Bool :=
  (List.range board_dim).any fun x =>
    match bm.cell (x : Int) position.2 with
    | some q => q.kind = PieceKind.pawn ∧ ¬piece.is_promoted ∧ piece.player = q.player
    | none => false

/-- Embeds `InvalidDroppingUtils.check_for_uchifuzume`.  The body stores
the old occupant, writes the probed piece into the cell, and then calls
`CheckmateUtils.is_checkmate(board_matrix=..., checking_player=...)`.
That call omits the required positional arguments `board_black`,
`board_dim` and `checked_side_captured_pieces` of `is_checkmate`, so
Python raises `TypeError` at the call; the restoration assignment
`board_matrix[position[0]][position[1]] = old_piece` below the call never
runs, and the exception propagates with the probed piece still on the
board.  The first component of the result is the board as left behind. -/
def check_for_uchifuzume (piece : Piece) (bm : Board)
    (position : Int × Int) : Board × Except PyExc Bool :=
  let bm1 := bm.setCell position.1 position.2 (some piece)
  (bm1, Except.error PyExc.typeError)

/-- Embeds `MovementUtils.is_valid_drop`.  Its first statement calls
`InvalidDroppingUtils.check_for_stuck_piece(piece=..., board_black=...,
board_dim=..., board_matrix=..., drop_position=...)`; the callee signature
is `(piece, board_black, board_dim, position)`, so the keyword arguments
`board_matrix` and `drop_position` are unexpected and Python raises
`TypeError` at the call.  Nothing below the first check runs (the `nifu`
and `uchifuzume` checks are likewise called with the unexpected keyword
`drop_position` and would also raise `TypeError`), so the board is
returned untouched with the propagating exception. -/
def is_valid_drop (piece : Piece) (board_black : Option Player)
    (board_dim : Nat) (bm : Board) (drop_position : Int × Int) :
    Board × Except PyExc Bool :=
  (bm, Except.error PyExc.typeError)

/-- Embeds `MovementUtils.is_blocked`.  After the bounds check on the
recomputed final position, the body cross-checks the caller state with
`cls.is_valid_pathing(piece=piece, initial_position=position,
final_position=final_position)`.  That call omits the required positional
argument `board_black` of `is_valid_pathing`, so Python raises
`TypeError` there; the intermediate-cell walk and the friendly-endpoint
check further down are unreachable. -/
def is_blocked (piece : Piece) (position : Int × Int)
    (board_black : Option Player) (board_dim : Nat) (bm : Board)
    (baseline : MovementBaseline) (step : Rat) : Except PyExc Bool :=
  let pov := povOf piece.player board_black
  let fx : Rat := (position.1 : Rat) + (baseline.x_per_step : Rat) * step * (pov : Rat)
  let fy : Rat := (position.2 : Rat) + (baseline.y_per_step : Rat) * step * (pov : Rat)
  if fx < 0 ∨ (board_dim : Rat) ≤ fx ∨ fy < 0 ∨ (board_dim : Rat) ≤ fy then
    Except.error (PyExc.gp GPErr.outOfBound)
  else
    Except.error PyExc.typeError

/-- Embeds `MovementUtils.is_valid_move`: raise `NoPathingFoundError` when
`is_valid_pathing` returns `None` (a returned pair is a non-empty tuple,
hence always truthy), raise `BlockedPathingError` when `is_blocked`
returns `True`, else return `True`.  Exceptions from `is_blocked`
propagate. -/
def is_valid_move (piece : Piece) (board_black : Option Player)
    (board_dim : Nat) (bm : Board)
    (initial_position final_position : Int × Int) : Except PyExc Bool :=
  match is_valid_pathing piece board_black initial_position final_position with
  | none => Except.error (PyExc.gp GPErr.noPathingFound)
  | some (b, s) =>
      match is_blocked piece initial_position board_black board_dim bm b s with
      | Except.error e => Except.error e
      | Except.ok true => Except.error (PyExc.gp GPErr.blockedPathing)
      | Except.ok false => Except.ok true

/-- A threat record as documented for `get_threatening_list`:
`(piece, position, baseline, steps)`. -/
def Threat : Type := Piece × (Int × Int) × MovementBaseline × Rat

instance : DecidableEq Threat := by
  unfold Threat
  infer_instance

/-- The cell visit order of the nested
`for x_coor in range(board_dim): for y_coor in range(board_dim)` loops. -/
def scanCells (dim : Nat) : List (Int × Int) :=
  (List.range dim).flatMap fun x => (List.range dim).map fun y => ((x : Int), (y : Int))

/-- Embeds the loop of `MovementUtils.get_threatening_list` over the given
cell list.  Empty cells and cells of the other side are skipped; for the
first cell holding a piece of `threatening_player` the body calls
`cls.is_valid_pathing(piece=..., initial_position=..., final_position=...)`
without the required `board_black` argument, so Python raises `TypeError`
there and the loop never appends a threat. -/
def threatScanLoop (bm : Board) (threatening_player : Player) :
    List (Int × Int) → Except PyExc (List Threat)
  | [] => Except.ok []
  | c :: rest =>
      match bm.cell c.1 c.2 with
      | none => threatScanLoop bm threatening_player rest
      | some q =>
          if q.player = some threatening_player then Except.error PyExc.typeError
          else threatScanLoop bm threatening_player rest

/-- Embeds `MovementUtils.get_threatening_list`.  `position` is typed
`Option (Int × Int)` because `get_checking_list` passes `None` when no
opposing king is on the board; the loop raises (or finishes) before ever
reading `position`, so the value is never consulted. -/
def get_threatening_list (board_black : Option Player) (board_dim : Nat)
    (bm : Board) (position : Option (Int × Int))
    (threatening_player : Player) : Except PyExc (List Threat) :=
  threatScanLoop bm threatening_player (scanCells board_dim)

/-- Embeds the king scan at the top of `CheckmateUtils.get_checking_list`:
the loop does not break, so the last cell (in scan order) holding a
`KingPiece` not owned by `checking_player` wins; `None` when there is no
such cell. -/
def kingScan (board_dim : Nat) (bm : Board) (checking_player : Player) :
    Option (Int × Int) :=
  (scanCells board_dim).foldl
    (fun acc c =>
      match bm.cell c.1 c.2 with
      | some q =>
          if q.kind = PieceKind.king ∧ q.player ≠ some checking_player then some c
          else acc
      | none => acc)
    none

/-- Embeds `CheckmateUtils.get_checking_list`.  Contrary to its docstring
(which promises a pair of the king position and the threat list), the
source returns only the result of `get_threatening_list`. -/
def get_checking_list (board_black : Option Player) (board_dim : Nat)
    (bm : Board) (checking_player : Player) : Except PyExc (List Threat) :=
  get_threatening_list board_black board_dim bm
    (kingScan board_dim bm checking_player) checking_player

/-- Embeds `CheckmateUtils.is_checkmate`.  Its first statement unpacks
`king_position, checking_threats = cls.get_checking_list(...)`, but
`get_checking_list` returns a single list (see above): unpacking a list
whose length is not 2 raises `ValueError`; with length exactly 2,
`king_position` is bound to a threat 4-tuple and the following
`board_matrix[king_position[0]]` indexes a list with a piece object,
raising `TypeError`.  Either way no boolean is ever returned. -/
def is_checkmate (board_black : Option Player) (board_dim : Nat)
    (bm : Board) (checked_side_captured_pieces : List Piece)
    (checking_player : Player) : Except PyExc Bool :=
  match get_checking_list board_black board_dim bm checking_player with
  | Except.error e => Except.error e
  | Except.ok threats =>
      if threats.length = 2 then Except.error PyExc.typeError
      else Except.error PyExc.valueError

/-- Embeds `boards/board.py`: the fields of `ShogiBoard` consulted by
`perform_move` / `perform_drop`.  `black`, `white`, `next_action` and
`winner` are nullable in the source; the two captured-piece pools are the
values of the `captured_pieces` dict at its two keys. -/
structure GameState where
  dim : Nat
  black : Option Player
  white : Option Player
  next_action : Option Player
  winner : Option Player
  board : Board
  captured_senior : List Piece
  captured_junior : List Piece
deriving DecidableEq, Repr

/-- Reads `self.captured_pieces[p]`. -/
def GameState.capturedOf (st : GameState) : Player → List Piece
  | Player.senior => st.captured_senior
  | Player.junior => st.captured_junior

/-- Embeds the promotion-zone guard condition of `perform_move`
(lines 120-128): note that for the white side the chained comparison
`self.dim-2 < row < self.dim` holds only for `row = dim - 1`. -/
def promotionZoneViolation (st : GameState) (current : Player)
    (ini fin : Int × Int) : Bool :=
  decide (
    (st.black = some current
      ∧ ¬(0 ≤ ini.1 ∧ ini.1 ≤ 2) ∧ ¬(0 ≤ fin.1 ∧ fin.1 ≤ 2))
    ∨ (st.white = some current
      ∧ ¬((st.dim : Int) - 2 < ini.1 ∧ ini.1 < (st.dim : Int))
      ∧ ¬((st.dim : Int) - 2 < fin.1 ∧ fin.1 < (st.dim : Int))))

/-- Embeds the upfront guard clauses of `perform_move` (lines 88-132), in
source order; `none` when every guard passes. -/
def moveGuards (st : GameState) (current : Player) (ini fin : Int × Int)
    (promote : Bool) : Option GPErr :=
  if st.black = none then some GPErr.gameNotInitiated
  else if st.winner ≠ none then some GPErr.gameEnded
  else if some current ≠ st.next_action then some GPErr.incorrectPlayer
  else if ¬(0 ≤ ini.1 ∧ ini.1 < (st.dim : Int)) ∨ ¬(0 ≤ ini.2 ∧ ini.2 < (st.dim : Int)) then
    some GPErr.outOfBound
  else if ¬(0 ≤ fin.1 ∧ fin.1 < (st.dim : Int)) ∨ ¬(0 ≤ fin.2 ∧ fin.2 < (st.dim : Int)) then
    some GPErr.outOfBound
  else
    match st.board.cell ini.1 ini.2 with
    | none => some GPErr.emptyCell
    | some piece =>
        if piece.player ≠ some current then some GPErr.pieceNotOwned
        else if promote ∧ ¬piece.promotable then some GPErr.notPromotable
        else if promote ∧ promotionZoneViolation st current ini fin then
          some GPErr.notInPromotionZone
        else none

/-- Embeds lines 143-166 of `perform_move`: the mutations performed once
`is_valid_move` has returned `True`.  A capture first runs
`set_player(current_player)` on the occupant (in place, so the grid cell
and the pool entry are the same mutated object - no `demote()` call) and
appends it to the capturing pool; the moving piece then overwrites the
destination; a stuck piece is force-promoted or, if not promotable,
`NotPromotableError` is raised leaving the partial mutation in place;
finally the origin is cleared and the turn flips. -/
def moveApplyRest (st : GameState) (current : Player) (ini fin : Int × Int) :
    GameState × Option PyExc :=
  let st1 : GameState :=
    match st.board.cell fin.1 fin.2 with
    | some q =>
        let q2 := { q with player := some current }
        let bd := st.board.setCell fin.1 fin.2 (some q2)
        (match current with
         | Player.senior => { st with board := bd, captured_senior := st.captured_senior ++ [q2] }
         | Player.junior => { st with board := bd, captured_junior := st.captured_junior ++ [q2] })
    | none => st
  let st2 := { st1 with board := st1.board.setCell fin.1 fin.2 (st1.board.cell ini.1 ini.2) }
  match st2.board.cell fin.1 fin.2 with
  | none =>
      -- unreachable behind the EmptyCellError guard: `check_for_stuck_piece`
      -- would dereference attributes of `None` (AttributeError).
      (st2, some PyExc.exc)
  | some mv =>
      if check_for_stuck_piece mv st.black (st.dim : Int) fin then
        if mv.promotable then
          let st3 := { st2 with board := st2.board.setCell fin.1 fin.2 (some mv.promote) }
          ({ st3 with board := st3.board.setCell ini.1 ini.2 none,
                      next_action := st3.next_action.map Player.opp }, none)
        else (st2, some (PyExc.gp GPErr.notPromotable))
      else
        ({ st2 with board := st2.board.setCell ini.1 ini.2 none,
                    next_action := st2.next_action.map Player.opp }, none)

/-- Embeds the `try` block of `perform_move` (lines 134-169): run
`is_valid_move` on the origin piece, then apply the mutations; a `False`
return would raise the plain `Exception` of the `else` branch. -/
def moveApply (st : GameState) (current : Player) (ini fin : Int × Int) :
    GameState × Option PyExc :=
  match st.board.cell ini.1 ini.2 with
  | none =>
      -- unreachable behind the EmptyCellError guard: `is_valid_pathing`
      -- would dereference attributes of `None` (AttributeError).
      (st, some PyExc.exc)
  | some piece =>
      match is_valid_move piece st.black st.dim st.board ini fin with
      | Except.error e => (st, some e)
      | Except.ok true => moveApplyRest st current ini fin
      | Except.ok false => (st, some PyExc.exc)

/-- Embeds `ShogiBoard.perform_move`: guards first (a guard error
propagates with the state untouched); then the `try` block; a
`GameplayException` raised inside it is caught by the
`except GameplayException` clause, which records the opponent as winner
and returns normally, while any other exception propagates together with
whatever partial mutation happened before it was raised. -/
def perform_move (st : GameState) (current : Player) (ini fin : Int × Int)
    (promote : Bool) : GameState × Option PyExc :=
  match moveGuards st current ini fin promote with
  | some e => (st, some (PyExc.gp e))
  | none =>
      match moveApply st current ini fin with
      | (st2, some e) =>
          if e.isGameplay then ({ st2 with winner := some current.opp }, none)
          else (st2, some e)
      | (st2, none) => (st2, none)

/-- Embeds the upfront guard clauses of `perform_drop` (lines 192-209).
The pool-membership test `piece not in self.captured_pieces[current]`
uses `BasePiece.__eq__`, which compares by `id` alone. -/
def dropGuards (st : GameState) (piece : Piece) (current : Player)
    (position : Int × Int) : Option GPErr :=
  if st.black = none then some GPErr.gameNotInitiated
  else if st.winner ≠ none then some GPErr.gameEnded
  else if some current ≠ st.next_action then some GPErr.incorrectPlayer
  else if ¬(0 ≤ position.1 ∧ position.1 < (st.dim : Int)) ∨ ¬(0 ≤ position.2 ∧ position.2 < (st.dim : Int)) then
    some GPErr.outOfBound
  else if (st.board.cell position.1 position.2).isSome then some GPErr.occupiedCell
  else if ¬(st.capturedOf current).any (fun q => q.id == piece.id) then
    some GPErr.droppingPieceNotExisted
  else none

/-- Embeds `ShogiBoard.perform_drop`.  The `try` block calls
`MovementUtils.is_valid_drop(piece=..., board_black=..., board_dim=...,
board_matrix=..., drop_position=..., opponent_captured_pieces=...)`; the
callee signature (`piece, board_black, board_dim, board_matrix,
drop_position`) has no `opponent_captured_pieces` parameter, so Python
raises `TypeError` at the call site, before the callee body runs.
`TypeError` is not a `GameplayException`, so the `except` clause does not
fire and the exception propagates with the state untouched; the success
branch (placing the argument piece, `remove`-ing the first pool element
equal to it by id, flipping the turn) and the forfeiture conversion are
unreachable. -/
def perform_drop (st : GameState) (piece : Piece) (current : Player)
    (position : Int × Int) : GameState × Option PyExc :=
  match dropGuards st piece current position with
  | some e => (st, some (PyExc.gp e))
  | none => (st, some PyExc.typeError)

/-- Modelled from the spec: the gold general movement table used by
several piece profiles (the per-piece JSON profiles under
`profiles/pieces/` are not part of `src/`).  Geometry is declared from the
black point of view, forward being decreasing row index (black's
promotion zone is rows 0..2 in `perform_move`). -/
def goldMoves : List MovementBaseline :=
  [⟨-1, 0, true, false⟩, ⟨-1, -1, true, false⟩, ⟨-1, 1, true, false⟩,
   ⟨0, -1, true, false⟩, ⟨0, 1, true, false⟩, ⟨1, 0, true, false⟩]

/-- Modelled from the spec: normal-form movement baselines per piece type
(profiles not under `src/`; standard shogi geometry, declared from the
black point of view). -/
def movesFor : PieceKind → List MovementBaseline
  | PieceKind.pawn => [⟨-1, 0, true, false⟩]
  | PieceKind.king =>
      [⟨-1, 0, true, false⟩, ⟨-1, 1, true, false⟩, ⟨0, 1, true, false⟩,
       ⟨1, 1, true, false⟩, ⟨1, 0, true, false⟩, ⟨1, -1, true, false⟩,
       ⟨0, -1, true, false⟩, ⟨-1, -1, true, false⟩]
  | PieceKind.rook =>
      [⟨-1, 0, false, false⟩, ⟨1, 0, false, false⟩,
       ⟨0, -1, false, false⟩, ⟨0, 1, false, false⟩]
  | PieceKind.bishop =>
      [⟨-1, -1, false, false⟩, ⟨-1, 1, false, false⟩,
       ⟨1, -1, false, false⟩, ⟨1, 1, false, false⟩]
  | PieceKind.gold => goldMoves
  | PieceKind.silver =>
      [⟨-1, 0, true, false⟩, ⟨-1, -1, true, false⟩, ⟨-1, 1, true, false⟩,
       ⟨1, -1, true, false⟩, ⟨1, 1, true, false⟩]
  | PieceKind.knight => [⟨-2, -1, true, false⟩, ⟨-2, 1, true, false⟩]
  | PieceKind.lance => [⟨-1, 0, false, false⟩]

/-- Modelled from the spec: promoted-form movement baselines per piece
type (promoted minors move as gold; promoted rook and bishop add the
one-step moves of the other diagonal/orthogonal family). -/
def promotedMovesFor : PieceKind → List MovementBaseline
  | PieceKind.pawn => goldMoves
  | PieceKind.lance => goldMoves
  | PieceKind.knight => goldMoves
  | PieceKind.silver => goldMoves
  | PieceKind.rook =>
      movesFor PieceKind.rook ++
      [⟨-1, -1, true, false⟩, ⟨-1, 1, true, false⟩,
       ⟨1, -1, true, false⟩, ⟨1, 1, true, false⟩]
  | PieceKind.bishop =>
      movesFor PieceKind.bishop ++
      [⟨-1, 0, true, false⟩, ⟨1, 0, true, false⟩,
       ⟨0, -1, true, false⟩, ⟨0, 1, true, false⟩]
  | PieceKind.king => []
  | PieceKind.gold => []

/-- Modelled from the spec: kings and golds are the types that cannot
promote. -/
def promotableOf : PieceKind → Bool
  | PieceKind.king => false
  | PieceKind.gold => false
  | _ => true

/-- Builds a freshly constructed piece of the given type, id and owner, as
the board constructor does (`is_promoted = False`, `moves_in_use = moves`,
then `set_player`). -/
def mkPiece (i : Nat) (k : PieceKind) (pl : Player) : Piece :=
  { id := i, kind := k, promotable := promotableOf k, is_promoted := false,
    moves := movesFor k, promoted_moves := promotedMovesFor k, player := some pl }

/-- A row of nine empty cells. -/
def emptyRow9 : List (Option Piece) := List.replicate 9 none

/-- A row of nine pawns of one side with consecutive ids starting at
`i0`. -/
def pawnRow (i0 : Nat) (pl : Player) : List (Option Piece) :=
  (List.range 9).map fun j => some (mkPiece (i0 + j) PieceKind.pawn pl)

/-- Modelled from the spec: the standard 9x9 starting layout (the board
profile `profiles/boards/standard.json` is not part of `src/`).  Rows
0..2 belong to the white side (senior here), rows 6..8 to the black side
(junior here); ids increase in row-major order. -/
def stdBoard : Board :=
  [ [some (mkPiece 0 PieceKind.lance Player.senior), some (mkPiece 1 PieceKind.knight Player.senior),
     some (mkPiece 2 PieceKind.silver Player.senior), some (mkPiece 3 PieceKind.gold Player.senior),
     some (mkPiece 4 PieceKind.king Player.senior), some (mkPiece 5 PieceKind.gold Player.senior),
     some (mkPiece 6 PieceKind.silver Player.senior), some (mkPiece 7 PieceKind.knight Player.senior),
     some (mkPiece 8 PieceKind.lance Player.senior)],
    [none, some (mkPiece 9 PieceKind.rook Player.senior), none, none, none, none, none,
     some (mkPiece 10 PieceKind.bishop Player.senior), none],
    pawnRow 11 Player.senior,
    emptyRow9, emptyRow9, emptyRow9,
    pawnRow 20 Player.junior,
    [none, some (mkPiece 29 PieceKind.bishop Player.junior), none, none, none, none, none,
     some (mkPiece 30 PieceKind.rook Player.junior), none],
    [some (mkPiece 31 PieceKind.lance Player.junior), some (mkPiece 32 PieceKind.knight Player.junior),
     some (mkPiece 33 PieceKind.silver Player.junior), some (mkPiece 34 PieceKind.gold Player.junior),
     some (mkPiece 35 PieceKind.king Player.junior), some (mkPiece 36 PieceKind.gold Player.junior),
     some (mkPiece 37 PieceKind.silver Player.junior), some (mkPiece 38 PieceKind.knight Player.junior),
     some (mkPiece 39 PieceKind.lance Player.junior)] ]

/-- The game state right after `ShogiBoard(first_move=Junior)` builds the
standard layout: junior is black and moves first, no captures, no
winner. -/
def stdState : GameState :=
  { dim := 9, black := some Player.junior, white := some Player.senior,
    next_action := some Player.junior, winner := none,
    board := stdBoard, captured_senior := [], captured_junior := [] }

/-- A piece whose declared move list is empty: any move attempt with it
makes `is_valid_pathing` return `None`, so `is_valid_move` raises
`NoPathingFoundError` inside the application phase. -/
def noMovePiece : Piece :=
  { id := 0, kind := PieceKind.rook, promotable := true, is_promoted := false,
    moves := [], promoted_moves := [], player := some Player.junior }

/-- A 2x2 board holding only `noMovePiece` at (0,0). -/
def forfeitBoard : Board :=
  [[some noMovePiece, none], [none, none]]

/-- A tiny in-progress game used to exercise the forfeiture conversion:
junior (black, to move) owns a piece that has no legal pathing
anywhere. -/
def stForfeit : GameState :=
  { dim := 2, black := some Player.junior, white := some Player.senior,
    next_action := some Player.junior, winner := none,
    board := forfeitBoard, captured_senior := [], captured_junior := [] }

/-- A piece owning a single unlimited baseline with x component 2: the
per-axis quotient for a displacement of one cell is the non-integral
1/2. -/
def fracPiece : Piece :=
  { id := 0, kind := PieceKind.rook, promotable := true, is_promoted := false,
    moves := [⟨2, 0, false, false⟩], promoted_moves := [], player := some Player.junior }

/-- A pawn-style probe piece with the single forward baseline, used for
the stuck-piece check. -/
def stuckProbe : Piece :=
  { id := 0, kind := PieceKind.pawn, promotable := true, is_promoted := false,
    moves := [⟨-1, 0, true, false⟩], promoted_moves := goldMoves, player := some Player.junior }

/-- A 2x2 board with every cell empty. -/
def emptyBoard2 : Board :=
  [[none, none], [none, none]]

/-- An unpromoted junior pawn used as the uchifuzume probe. -/
def uchiPawn : Piece := mkPiece 0 PieceKind.pawn Player.junior

/-- The promoted senior pawn sitting on the destination cell of the
capture fixture. -/
def capturedPawn : Piece :=
  { mkPiece 1 PieceKind.pawn Player.senior with is_promoted := true }

/-- A 2x2 board: junior rook at (0,0), promoted senior pawn at (0,1). -/
def captureBoard : Board :=
  [[some (mkPiece 0 PieceKind.rook Player.junior), some capturedPawn], [none, none]]

/-- Game state for the capture fixture (junior is black and to move). -/
def stCap : GameState :=
  { dim := 2, black := some Player.junior, white := some Player.senior,
    next_action := some Player.junior, winner := none,
    board := captureBoard, captured_senior := [], captured_junior := [] }

/-- The senior pawn already standing in column 0 of the nifu fixture. -/
def colPawn : Piece := mkPiece 1 PieceKind.pawn Player.senior

/-- The senior pawn about to be dropped into column 0. -/
def dropPawn : Piece := mkPiece 7 PieceKind.pawn Player.senior

/-- A 2x2 board with `colPawn` at (1,0): column 0 already holds an
unpromoted senior pawn. -/
def bmNifu : Board :=
  [[none, none], [some colPawn, none]]

/-- A lone senior king at (0,0) on a 2x2 board; the junior side has no
pieces at all, so no junior piece threatens anything. -/
def bmKing : Board :=
  [[some (mkPiece 0 PieceKind.king Player.senior), none], [none, none]]

/-- The junior pawn sitting in junior's captured pool of the drop
fixture. -/
def poolPawn : Piece := mkPiece 5 PieceKind.pawn Player.junior

/-- A piece distinct from `poolPawn` as an object (different promotion
flag) but carrying the same id. -/
def argPiece : Piece := { poolPawn with is_promoted := true }

/-- Game state for the drop fixture: junior to move, empty 2x2 board,
`poolPawn` in junior's pool. -/
def stDrop : GameState :=
  { dim := 2, black := some Player.junior, white := some Player.senior,
    next_action := some Player.junior, winner := none,
    board := emptyBoard2, captured_senior := [], captured_junior := [poolPawn] }

/-- Game state for the promotion-zone fixture: dim 9, junior is black,
senior (the white side) to move, with a senior silver on row 6 - a row
the spec places inside the white promotion zone `dim-3 .. dim-1`. -/
def stZone : GameState :=
  { dim := 9, black := some Player.junior, white := some Player.senior,
    next_action := some Player.senior, winner := none,
    board := [emptyRow9, emptyRow9, emptyRow9, emptyRow9, emptyRow9, emptyRow9,
              some (mkPiece 0 PieceKind.silver Player.senior) :: List.replicate 8 none,
              emptyRow9, emptyRow9],
    captured_senior := [], captured_junior := [] }

/-- The clean algebraic eligibility predicate an `is_valid_pathing`
baseline actually satisfies: a rational step count `q` that reproduces the
displacement on both axes under the point-of-view coefficient, is
non-negative, is at most 1 for a step-limited baseline, with the two
degenerate exclusions of the source loop (a baseline with both components
zero never matches, and a baseline whose y component is zero is skipped
when the x displacement is zero, because the flattening
`steps_required[0] or steps_required[1]` treats the `0.0` x quotient as
falsy and falls through to the missing y quotient). -/
def PathingMatch (pov : Int) (dx dy : Int) (b : MovementBaseline) (q : Rat) : Prop :=
  ((b.x_per_step * pov : Int) : Rat) * q = (dx : Rat) ∧
  ((b.y_per_step * pov : Int) : Rat) * q = (dy : Rat) ∧
  0 ≤ q ∧
  (b.step_limit = true → q ≤ 1) ∧
  ¬(b.x_per_step = 0 ∧ b.y_per_step = 0) ∧
  (b.y_per_step = 0 → dx ≠ 0)

/-- Claim C1: on the standard 9x9 starting layout the First-Mover (black,
junior here) advances the pawn at (6,0) one step forward to the empty cell
(5,0) with no promotion requested.  The claim says the call succeeds; in
the source, after all guards pass, `is_valid_move` reaches `is_blocked`,
whose internal `is_valid_pathing` call omits the required `board_black`
argument, so the call raises `TypeError`: the move is never applied, the
turn does not flip, and the exception reaches the caller. -/
theorem scenario_a_pawn_push_raises_type_error :
    stdState.board.cell 6 0 = some (mkPiece 20 PieceKind.pawn Player.junior) ∧
    stdState.board.cell 5 0 = none ∧
    perform_move stdState Player.junior (6, 0) (5, 0) false
      = (stdState, some PyExc.typeError) := by
  refine ⟨rfl, rfl, ?_⟩
  with_unfolding_all decide

/-- Claim C4: `check_for_uchifuzume` probed on an empty cell of an empty
2x2 board.  The claim says the probed cell again holds its prior occupant
(here `None`) on every exit, including when the inner checkmate evaluation
raises.  In the source the inner `is_checkmate` call omits three required
arguments and raises `TypeError`, and the restoration assignment below it
never runs: the function exits with the probed pawn still on the cell, so
the board it leaves behind differs from the input board. -/
theorem uchifuzume_probe_not_restored :
    (check_for_uchifuzume uchiPawn emptyBoard2 (0, 0)).1 ≠ emptyBoard2 ∧
    (check_for_uchifuzume uchiPawn emptyBoard2 (0, 0)).1.cell 0 0 = some uchiPawn ∧
    (check_for_uchifuzume uchiPawn emptyBoard2 (0, 0)).2 = Except.error PyExc.typeError := by
  exact ⟨by decide, rfl, rfl⟩

/-- Claim C5: a black pawn-like piece at (0,5) on a 9x9 board.  Its only
baseline shifts the position to (-1,5), which lies outside the board, so
by the claim the piece is stuck and the predicate should return `True`;
the source tests the two axes with `or`, accepts the in-bounds y
coordinate alone, and returns `False`. -/
theorem stuck_piece_check_accepts_half_off_board_shift :
    stuckProbe.moves_in_use = [⟨-1, 0, true, false⟩] ∧
    povOf stuckProbe.player (some Player.junior) = 1 ∧
    ((0 : Int) + (-1) * 1 = -1 ∧ ¬(0 ≤ (-1 : Int) ∧ (-1 : Int) < 9)) ∧
    check_for_stuck_piece stuckProbe (some Player.junior) 9 (0, 5) = false := by
  exact ⟨rfl, rfl, ⟨rfl, by decide⟩, rfl⟩

/-- Claim C6: white (senior here, with junior as black) requests promotion
moving a promotable silver from row 6 to row 5 on a 9x9 board.  Rows 6, 7
and 8 are `dim-3 .. dim-1`, the white promotion zone per the claim, so no
promotion-zone error should be raised; the source's chained comparison
`self.dim-2 < row < self.dim` accepts only row `dim-1 = 8`, so the guard
raises `NotInPromotionZoneError` here. -/
theorem promotion_zone_white_side_single_rank :
    ((9 : Int) - 3 ≤ 6 ∧ (6 : Int) ≤ 9 - 1) ∧
    perform_move stZone Player.senior (6, 0) (5, 0) true
      = (stZone, some (PyExc.gp GPErr.notInPromotionZone)) := by
  exact ⟨by decide, rfl⟩

/-- Claim C7: the post-validation mutation block of `perform_move`
(lines 143-166) capturing a promoted senior pawn with a junior rook.  The
captured piece's side tag is set to the capturer and it is appended to the
capturer's pool, but `demote()` is never called, so the pooled piece still
has `is_promoted = True` (the docstring of `demote` itself calls it the
technical method used when the piece is captured).  Note this block is
moreover unreachable in the current source because `is_valid_move` always
raises before returning `True`. -/
theorem capture_transfer_keeps_promotion_flag :
    (moveApplyRest stCap Player.junior (0, 0) (0, 1)).2 = none ∧
    (moveApplyRest stCap Player.junior (0, 0) (0, 1)).1.capturedOf Player.junior
      = [{ capturedPawn with player := some Player.junior }] ∧
    ({ capturedPawn with player := some Player.junior }).is_promoted = true ∧
    capturedPawn.is_promoted = true := by
  exact ⟨rfl, rfl, rfl, rfl⟩

/-- Claim C8: dropping an unpromoted senior pawn at (0,0) of a 2x2 board
whose column 0 already holds an unpromoted senior pawn.  The nifu logic
itself (`check_for_nifu`, called with its own signature) detects the
overcrowding, but `is_valid_drop` never reaches it: its first statement
calls `check_for_stuck_piece` with the unexpected keyword arguments
`board_matrix` and `drop_position`, so the call raises `TypeError`
instead of the claimed overcrowding `InvalidDropError` (the board is
indeed left unchanged). -/
theorem nifu_drop_raises_type_error_not_invalid_drop :
    bmNifu.cell 1 0 = some colPawn ∧
    (colPawn.kind = PieceKind.pawn ∧ colPawn.is_promoted = false) ∧
    (dropPawn.kind = PieceKind.pawn ∧ dropPawn.is_promoted = false ∧
      colPawn.player = dropPawn.player) ∧
    check_for_nifu dropPawn 2 bmNifu (0, 0) = true ∧
    is_valid_drop dropPawn (some Player.senior) 2 bmNifu (0, 0)
      = (bmNifu, Except.error PyExc.typeError) := by
  exact ⟨rfl, ⟨rfl, rfl⟩, ⟨rfl, rfl, rfl⟩, rfl, rfl⟩

/-- Claim C9: a lone senior king on a 2x2 board, the junior side owning no
pieces at all, so the set of junior pieces that can reach the king is
empty and by the claim `is_checkmate` must return `False`.  In the source
`get_checking_list` returns the bare threat list `[]` instead of the
documented (king position, list) pair, and the unpacking assignment at
the top of `is_checkmate` raises `ValueError`: no boolean is ever
returned. -/
theorem empty_threat_set_checkmate_raises_value_error :
    get_checking_list (some Player.senior) 2 bmKing Player.junior = Except.ok [] ∧
    is_checkmate (some Player.senior) 2 bmKing [] Player.junior
      = Except.error PyExc.valueError := by
  exact ⟨rfl, rfl⟩

/-- Claim C10 counterexample: a fully legal drop configuration - junior to
move, empty in-bounds destination (1,1), and an argument object that is
distinct from the pool pawn but carries its id.  The membership guard
passes (first half of the claim), yet the drop never succeeds: the
`is_valid_drop` call raises `TypeError` (its caller passes the unexpected
keyword `opponent_captured_pieces`), the exception propagates, and neither
is the argument placed on the board nor is any pool element removed,
contrary to the placement the claim describes. -/
theorem drop_never_places_argument_object :
    argPiece ≠ poolPawn ∧ argPiece.id = poolPawn.id ∧
    dropGuards stDrop argPiece Player.junior (1, 1) = none ∧
    perform_drop stDrop argPiece Player.junior (1, 1)
      = (stDrop, some PyExc.typeError) ∧
    (perform_drop stDrop argPiece Player.junior (1, 1)).1.board.cell 1 1 = none ∧
    (perform_drop stDrop argPiece Player.junior (1, 1)).1.capturedOf Player.junior
      = [poolPawn] := by
  exact ⟨by decide, rfl, rfl, rfl, rfl, rfl⟩

/-- Claim C2: exception routing of the Turn Controller.  For every state
and arguments: (i) a gameplay exception that reaches the caller of
`perform_move` is always one produced by the upfront guards, with the
state returned exactly as it was (any other escaping exception is not a
`GameplayException`); (ii) once the guards pass, a gameplay exception
raised during the application phase is caught and converted: the call
returns without exception and records the acting side's opponent as
winner on top of whatever partial mutation existed; (iii) the same
caller-visible dichotomy holds for `perform_drop`; (iv) after the drop
guards pass, the application phase always raises the non-gameplay
`TypeError` of the malformed `is_valid_drop` call, which propagates with
the state untouched (so drop-rule errors are never the escaping
exception); (v) and (vi): conversely, whenever a move or drop guard
fires, the call returns exactly that guard error to the caller with the
state unchanged - the upfront guard errors propagate directly and are
never converted to forfeiture. -/
theorem turn_controller_error_routing
    (st : GameState) (p : Player) (ini fin : Int × Int) (promote : Bool)
    (piece : Piece) (pos : Int × Int) :
    (∀ st2 e, perform_move st p ini fin promote = (st2, some e) →
        (st2 = st ∧ ∃ g, e = PyExc.gp g ∧ moveGuards st p ini fin promote = some g)
        ∨ e.isGameplay = false) ∧
    (moveGuards st p ini fin promote = none →
      ∀ st2 e, moveApply st p ini fin = (st2, some e) → e.isGameplay = true →
        perform_move st p ini fin promote = ({ st2 with winner := some p.opp }, none)) ∧
    (∀ st2 e, perform_drop st piece p pos = (st2, some e) →
        (st2 = st ∧ ∃ g, e = PyExc.gp g ∧ dropGuards st piece p pos = some g)
        ∨ e.isGameplay = false) ∧
    (dropGuards st piece p pos = none →
      perform_drop st piece p pos = (st, some PyExc.typeError)) ∧
    (∀ g, moveGuards st p ini fin promote = some g →
      perform_move st p ini fin promote = (st, some (PyExc.gp g))) ∧
    (∀ g, dropGuards st piece p pos = some g →
      perform_drop st piece p pos = (st, some (PyExc.gp g))) := by
  refine ⟨?_, ?_, ?_, ?_, ?_, ?_⟩
  · intro st2 e h
    unfold perform_move at h
    cases hg : moveGuards st p ini fin promote with
    | some g =>
        rw [hg] at h
        injection h with h1 h2
        injection h2 with h2
        exact Or.inl ⟨h1.symm, g, h2.symm, rfl⟩
    | none =>
        rw [hg] at h
        rcases hma : moveApply st p ini fin with ⟨st3, oe⟩
        rw [hma] at h
        cases oe with
        | some e2 =>
            by_cases hgp : e2.isGameplay = true
            · simp only [hgp, if_true] at h
              injection h with h1 h2
              cases h2
            · simp only [hgp, if_false, Bool.false_eq_true] at h
              injection h with h1 h2
              injection h2 with h2
              right
              rw [← h2]
              exact Bool.not_eq_true _ |>.mp hgp
        | none =>
            injection h with h1 h2
            cases h2
  · intro hg st2 e hma hgp
    unfold perform_move
    rw [hg, hma]
    simp only [hgp, if_true]
  · intro st2 e h
    unfold perform_drop at h
    cases hg : dropGuards st piece p pos with
    | some g =>
        rw [hg] at h
        injection h with h1 h2
        injection h2 with h2
        exact Or.inl ⟨h1.symm, g, h2.symm, rfl⟩
    | none =>
        rw [hg] at h
        injection h with h1 h2
        injection h2 with h2
        right
        rw [← h2]
        rfl
  · intro hg
    unfold perform_drop
    rw [hg]
  · intro g hg
    unfold perform_move
    rw [hg]
  · intro g hg
    unfold perform_drop
    rw [hg]

/-- Witness for claim C2, exercising both halves at concrete inputs in
the state `stForfeit`.  Forfeiture conversion: with junior (the side to
move) acting, the guards pass and the application phase raises
`NoPathingFoundError` (the junior piece has an empty move list), so the
call returns without exception and records senior as winner.  Guard
propagation: with senior acting out of turn, the `IncorrectPlayerError`
guard fires and the call returns exactly that error with the state
unchanged. -/
theorem turn_controller_error_routing_witness :
    perform_move stForfeit Player.junior (0, 0) (1, 1) false
      = ({ stForfeit with winner := some Player.senior }, none) ∧
    perform_move stForfeit Player.senior (0, 0) (1, 1) false
      = (stForfeit, some (PyExc.gp GPErr.incorrectPlayer)) := by
  have h :=
    (turn_controller_error_routing stForfeit Player.junior (0, 0) (1, 1) false
      noMovePiece (0, 0)).2.1
  have hg :=
    (turn_controller_error_routing stForfeit Player.senior (0, 0) (1, 1) false
      noMovePiece (0, 0)).2.2.2.2.1
  exact ⟨h rfl stForfeit (PyExc.gp GPErr.noPathingFound) rfl rfl,
    hg GPErr.incorrectPlayer rfl⟩

/-- Claim C10 (amended): once the guards before the pool-membership test
pass, the membership guard of `perform_drop` passes if and only if some
pool piece carries the argument's id (so a distinct object with a
matching id passes), and whenever it passes the drop still never
completes: the `is_valid_drop` call raises a non-gameplay `TypeError`
(unexpected keyword `opponent_captured_pieces`) that propagates with the
board, the pools and the turn untouched, so the placement and
pool-removal statements are unreachable. -/
theorem drop_pool_membership_guard_by_id
    (st : GameState) (piece : Piece) (p : Player) (pos : Int × Int)
    (h1 : st.black ≠ none) (h2 : st.winner = none) (h3 : st.next_action = some p)
    (h4 : (0 ≤ pos.1 ∧ pos.1 < (st.dim : Int)) ∧ (0 ≤ pos.2 ∧ pos.2 < (st.dim : Int)))
    (h5 : st.board.cell pos.1 pos.2 = none) :
    (dropGuards st piece p pos = none ↔ ∃ q ∈ st.capturedOf p, q.id = piece.id) ∧
    ((∃ q ∈ st.capturedOf p, q.id = piece.id) →
      perform_drop st piece p pos = (st, some PyExc.typeError)) := by
  have hguard : dropGuards st piece p pos
      = if ¬(st.capturedOf p).any (fun q => q.id == piece.id)
        then some GPErr.droppingPieceNotExisted else none := by
    unfold dropGuards
    rw [if_neg h1, if_neg (by simp [h2]), if_neg (by simp [h3]),
        if_neg (by push_neg; exact h4), if_neg (by simp [h5])]
  have hnone_iff : dropGuards st piece p pos = none ↔
      ∃ q ∈ st.capturedOf p, q.id = piece.id := by
    rw [hguard]
    constructor
    · intro h
      by_contra hne
      have hnone : ¬(st.capturedOf p).any (fun q => q.id == piece.id) = true := by
        simp only [List.any_eq_true, beq_iff_eq]
        intro hex
        exact hne hex
      rw [if_pos hnone] at h
      exact Option.noConfusion h
    · rintro ⟨q, hq, hid⟩
      have hany : (st.capturedOf p).any (fun q => q.id == piece.id) = true := by
        simp only [List.any_eq_true, beq_iff_eq]
        exact ⟨q, hq, hid⟩
      rw [if_neg (not_not_intro hany)]
  refine ⟨hnone_iff, fun hex => ?_⟩
  unfold perform_drop
  rw [hnone_iff.mpr hex]

/-- Witness for claim C10 (amended): in the concrete state `stDrop`, the
argument `argPiece` is a distinct object from the pooled `poolPawn` but
shares its id; the guard passes and the call returns the propagating
`TypeError` with the state untouched. -/
theorem drop_pool_membership_guard_by_id_witness :
    (dropGuards stDrop argPiece Player.junior (0, 1) = none ↔
      ∃ q ∈ stDrop.capturedOf Player.junior, q.id = argPiece.id) ∧
    perform_drop stDrop argPiece Player.junior (0, 1)
      = (stDrop, some PyExc.typeError) := by
  have h := drop_pool_membership_guard_by_id stDrop argPiece Player.junior (0, 1)
    (by decide) rfl rfl (by decide) rfl
  exact ⟨h.1, h.2 ⟨poolPawn, by decide, rfl⟩⟩

/-- The point-of-view coefficient is always 1 or -1. -/
theorem povOf_unit (a b : Option Player) : povOf a b = 1 ∨ povOf a b = -1 := by
  unfold povOf
  split
  · exact Or.inl rfl
  · exact Or.inr rfl

/-- A `findSome?` over a list returns `none` iff the function returns
`none` on every element. -/
theorem list_findSome?_eq_none {α β : Type _} (f : α → Option β) (l : List α) :
    l.findSome? f = none ↔ ∀ a ∈ l, f a = none := by
  induction l with
  | nil => simp [List.findSome?_nil]
  | cons a as ih =>
      rw [List.findSome?_cons]
      cases hfa : f a with
      | some b => simp [hfa]
      | none => simp [hfa, ih]

/-- A successful `findSome?` splits the list at the first element the
function accepts. -/
theorem list_findSome?_eq_some {α β : Type _} (f : α → Option β) (l : List α) (r : β)
    (h : l.findSome? f = some r) :
    ∃ l1 a l2, l = l1 ++ a :: l2 ∧ (∀ x ∈ l1, f x = none) ∧ f a = some r := by
  induction l with
  | nil => rw [List.findSome?_nil] at h; exact Option.noConfusion h
  | cons a as ih =>
      rw [List.findSome?_cons] at h
      cases hfa : f a with
      | some b =>
          rw [hfa] at h
          exact ⟨[], a, as, by simp, by simp, by rw [hfa]; exact h⟩
      | none =>
          rw [hfa] at h
          obtain ⟨l1, x, l2, hsplit, hnone, hfx⟩ := ih h
          refine ⟨a :: l1, x, l2, by simp [hsplit], ?_, hfx⟩
          intro y hy
          rcases List.mem_cons.mp hy with hy | hy
          · rw [hy, hfa]
          · exact hnone y hy

/-- Reduction of a single loop iteration of `is_valid_pathing` when both
baseline components are zero: the baseline is always skipped. -/
theorem baselineSteps_both_zero (pov dx dy : Int) (b : MovementBaseline)
    (hbx : b.x_per_step = 0) (hby : b.y_per_step = 0) :
    baselineSteps pov dx dy b = none := by
  unfold baselineSteps
  by_cases hdx : dx = 0
  · rw [if_neg (by rintro ⟨h, _⟩; exact h hdx)]
    by_cases hdy : dy = 0
    · rw [if_neg (by rintro ⟨h, _⟩; exact h hdy)]
      simp [if_pos hbx, if_pos hby]
    · rw [if_pos ⟨hdy, hby⟩]
  · rw [if_pos ⟨hdx, hbx⟩]

theorem baselineSteps_x_only (pov dx dy : Int) (b : MovementBaseline)
    (hbx : b.x_per_step ≠ 0) (hby : b.y_per_step = 0) (hdy : dy = 0) :
    baselineSteps pov dx dy b =
      (if (dx : Rat) / ((b.x_per_step * pov : Int) : Rat) = 0 then none
       else if (dx : Rat) / ((b.x_per_step * pov : Int) : Rat) < 0 then none
       else if 1 < (dx : Rat) / ((b.x_per_step * pov : Int) : Rat) ∧ b.step_limit = true then none
       else some ((dx : Rat) / ((b.x_per_step * pov : Int) : Rat))) := by
  unfold baselineSteps
  rw [if_neg (by rintro ⟨_, h⟩; exact hbx h), if_neg (by rintro ⟨h, _⟩; exact h hdy)]
  simp only [if_neg hbx, if_pos hby, Option.isSome_some, Option.isSome_none,
    Bool.false_eq_true, false_and, and_false, if_false]
  by_cases hu0 : (dx : Rat) / ((b.x_per_step * pov : Int) : Rat) = 0
  · rw [if_pos hu0, if_pos hu0]
  · rw [if_neg hu0, if_neg hu0]

theorem baselineSteps_y_only (pov dx dy : Int) (b : MovementBaseline)
    (hbx : b.x_per_step = 0) (hby : b.y_per_step ≠ 0) (hdx : dx = 0) :
    baselineSteps pov dx dy b =
      (if (dy : Rat) / ((b.y_per_step * pov : Int) : Rat) < 0 then none
       else if 1 < (dy : Rat) / ((b.y_per_step * pov : Int) : Rat) ∧ b.step_limit = true then none
       else some ((dy : Rat) / ((b.y_per_step * pov : Int) : Rat))) := by
  unfold baselineSteps
  rw [if_neg (by rintro ⟨h, _⟩; exact h hdx), if_neg (by rintro ⟨_, h⟩; exact hby h)]
  simp only [if_pos hbx, if_neg hby, Option.isSome_some, Option.isSome_none,
    Bool.false_eq_true, false_and, if_false]

theorem baselineSteps_x_zero_dx_ne (pov dx dy : Int) (b : MovementBaseline)
    (hbx : b.x_per_step = 0) (hdx : dx ≠ 0) :
    baselineSteps pov dx dy b = none := by
  unfold baselineSteps
  rw [if_pos ⟨hdx, hbx⟩]

theorem baselineSteps_y_zero_dy_ne (pov dx dy : Int) (b : MovementBaseline)
    (hby : b.y_per_step = 0) (hdy : dy ≠ 0) :
    baselineSteps pov dx dy b = none := by
  unfold baselineSteps
  by_cases hfirst : dx ≠ 0 ∧ b.x_per_step = 0
  · rw [if_pos hfirst]
  · rw [if_neg hfirst, if_pos ⟨hdy, hby⟩]

theorem baselineSteps_xy (pov dx dy : Int) (b : MovementBaseline)
    (hbx : b.x_per_step ≠ 0) (hby : b.y_per_step ≠ 0) :
    baselineSteps pov dx dy b =
      (if (dx : Rat) / ((b.x_per_step * pov : Int) : Rat)
          = (dy : Rat) / ((b.y_per_step * pov : Int) : Rat) then
        (if (dx : Rat) / ((b.x_per_step * pov : Int) : Rat) < 0 then none
         else if 1 < (dx : Rat) / ((b.x_per_step * pov : Int) : Rat) ∧ b.step_limit = true then none
         else some ((dx : Rat) / ((b.x_per_step * pov : Int) : Rat)))
      else none) := by
  unfold baselineSteps
  rw [if_neg (by rintro ⟨_, h⟩; exact hbx h), if_neg (by rintro ⟨_, h⟩; exact hby h)]
  simp only [if_neg hbx, if_neg hby, Option.isSome_some, true_and, ne_eq]
  by_cases huv : (dx : Rat) / ((b.x_per_step * pov : Int) : Rat)
      = (dy : Rat) / ((b.y_per_step * pov : Int) : Rat)
  · rw [if_neg (not_not_intro (Option.some_inj.mpr huv)), if_pos huv]
    by_cases hu0 : (dx : Rat) / ((b.x_per_step * pov : Int) : Rat) = 0
    · rw [if_pos hu0]
      rw [← huv]
    · rw [if_neg hu0]
  · rw [if_pos (fun h => huv (Option.some_inj.mp h)), if_neg huv]

theorem ite_chain2_eq_some {α : Type _} {c1 c2 : Prop} [Decidable c1] [Decidable c2] {v q : α} :
    (if c1 then none else if c2 then none else some v) = some q ↔ ¬c1 ∧ ¬c2 ∧ v = q := by
  split_ifs <;> simp_all

theorem ite_chain3_eq_some {α : Type _} {c0 c1 c2 : Prop} [Decidable c0] [Decidable c1]
    [Decidable c2] {v q : α} :
    (if c0 then none else if c1 then none else if c2 then none else some v) = some q ↔
      ¬c0 ∧ ¬c1 ∧ ¬c2 ∧ v = q := by
  split_ifs <;> simp_all


theorem baselineSteps_some_iff
    (pov : Int) (hpov : pov = 1 ∨ pov = -1) (dx dy : Int) (b : MovementBaseline) (q : Rat) :
    baselineSteps pov dx dy b = some q ↔ PathingMatch pov dx dy b q := by
  have hpovz : pov ≠ 0 := by rcases hpov with h | h <;> simp [h]
  by_cases hbx : b.x_per_step = 0 <;> by_cases hby : b.y_per_step = 0
  · -- both components zero: the source never matches, and PathingMatch
    -- excludes the (0,0) baseline explicitly
    rw [baselineSteps_both_zero pov dx dy b hbx hby]
    constructor
    · intro h
      exact Option.noConfusion h
    · rintro ⟨_, _, _, _, hnz, _⟩
      exact absurd ⟨hbx, hby⟩ hnz
  · -- x component zero, y component nonzero
    have hc : ((b.y_per_step * pov : Int) : Rat) ≠ 0 :=
      Int.cast_ne_zero.mpr (mul_ne_zero hby hpovz)
    by_cases hdx : dx = 0
    · rw [baselineSteps_y_only pov dx dy b hbx hby hdx]
      set v : Rat := (dy : Rat) / ((b.y_per_step * pov : Int) : Rat) with hv
      rw [ite_chain2_eq_some]
      constructor
      · rintro ⟨h1, h2, h⟩
        subst h
        refine ⟨by rw [hbx]; push_cast; rw [hdx]; push_cast; ring,
          ?_, le_of_not_lt h1, ?_, by simp [hby], by simp [hby]⟩
        · rw [hv, mul_comm]
          exact div_mul_cancel₀ _ hc
        · intro hl
          by_contra hgt
          exact h2 ⟨lt_of_not_le hgt, hl⟩
      · rintro ⟨e1, e2, hq0, hql, hnz, himp⟩
        have hqv : q = v := by
          rw [hv, eq_div_iff hc, mul_comm]
          exact e2
        exact ⟨by rw [← hqv]; exact not_lt.mpr hq0,
          by rw [← hqv]; rintro ⟨hlt, hlim⟩; exact absurd (hql hlim) (not_le.mpr hlt),
          hqv.symm⟩
    · rw [baselineSteps_x_zero_dx_ne pov dx dy b hbx hdx]
      constructor
      · intro h
        exact Option.noConfusion h
      · rintro ⟨e1, _, _, _, _, _⟩
        exfalso
        rw [hbx] at e1
        push_cast at e1
        rw [zero_mul, zero_mul] at e1
        exact hdx (by exact_mod_cast e1.symm)
  · -- x component nonzero, y component zero
    have hc : ((b.x_per_step * pov : Int) : Rat) ≠ 0 :=
      Int.cast_ne_zero.mpr (mul_ne_zero hbx hpovz)
    by_cases hdy : dy = 0
    · rw [baselineSteps_x_only pov dx dy b hbx hby hdy]
      set u : Rat := (dx : Rat) / ((b.x_per_step * pov : Int) : Rat) with hu
      rw [ite_chain3_eq_some]
      constructor
      · rintro ⟨h0, h1, h2, h⟩
        subst h
        have hdx : dx ≠ 0 := by
          intro hdx0
          apply h0
          rw [hu, hdx0]
          push_cast
          exact zero_div _
        refine ⟨?_, by rw [hby]; push_cast; rw [hdy]; push_cast; ring,
          le_of_not_lt h1, ?_, by simp [hbx], fun _ => hdx⟩
        · rw [hu, mul_comm]
          exact div_mul_cancel₀ _ hc
        · intro hl
          by_contra hgt
          exact h2 ⟨lt_of_not_le hgt, hl⟩
      · rintro ⟨e1, e2, hq0, hql, hnz, himp⟩
        have hdx : dx ≠ 0 := himp hby
        have hqv : q = u := by
          rw [hu, eq_div_iff hc, mul_comm]
          exact e1
        have hu0 : ¬u = 0 := by
          rw [hu]
          exact div_ne_zero (Int.cast_ne_zero.mpr hdx) hc
        exact ⟨hu0,
          by rw [← hqv]; exact not_lt.mpr hq0,
          by rw [← hqv]; rintro ⟨hlt, hlim⟩; exact absurd (hql hlim) (not_le.mpr hlt),
          hqv.symm⟩
    · rw [baselineSteps_y_zero_dy_ne pov dx dy b hby hdy]
      constructor
      · intro h
        exact Option.noConfusion h
      · rintro ⟨_, e2, _, _, _, _⟩
        exfalso
        rw [hby] at e2
        push_cast at e2
        rw [zero_mul, zero_mul] at e2
        exact hdy (by exact_mod_cast e2.symm)
  · -- both components nonzero
    have hcx : ((b.x_per_step * pov : Int) : Rat) ≠ 0 :=
      Int.cast_ne_zero.mpr (mul_ne_zero hbx hpovz)
    have hcy : ((b.y_per_step * pov : Int) : Rat) ≠ 0 :=
      Int.cast_ne_zero.mpr (mul_ne_zero hby hpovz)
    rw [baselineSteps_xy pov dx dy b hbx hby]
    set u : Rat := (dx : Rat) / ((b.x_per_step * pov : Int) : Rat) with hu
    set v : Rat := (dy : Rat) / ((b.y_per_step * pov : Int) : Rat) with hv
    by_cases huv : u = v
    · rw [if_pos huv, ite_chain2_eq_some]
      constructor
      · rintro ⟨h1, h2, h⟩
        subst h
        refine ⟨?_, ?_, le_of_not_lt h1, ?_, by simp [hbx], by simp [hby]⟩
        · rw [hu, mul_comm]
          exact div_mul_cancel₀ _ hcx
        · rw [huv, hv, mul_comm]
          exact div_mul_cancel₀ _ hcy
        · intro hl
          by_contra hgt
          exact h2 ⟨lt_of_not_le hgt, hl⟩
      · rintro ⟨e1, e2, hq0, hql, hnz, himp⟩
        have hqv : q = u := by
          rw [hu, eq_div_iff hcx, mul_comm]
          exact e1
        exact ⟨by rw [← hqv]; exact not_lt.mpr hq0,
          by rw [← hqv]; rintro ⟨hlt, hlim⟩; exact absurd (hql hlim) (not_le.mpr hlt),
          hqv.symm⟩
    · rw [if_neg huv]
      constructor
      · intro h
        exact Option.noConfusion h
      · rintro ⟨e1, e2, _, _, _, _⟩
        exfalso
        apply huv
        have h1 : u = q := by
          rw [hu, div_eq_iff hcx, mul_comm]
          exact e1.symm
        have h2 : v = q := by
          rw [hv, div_eq_iff hcy, mul_comm]
          exact e2.symm
        rw [h1, h2]

/-- A loop iteration skips its baseline exactly when no rational step
count satisfies the eligibility predicate. -/
theorem baselineSteps_none_iff
    (pov : Int) (hpov : pov = 1 ∨ pov = -1) (dx dy : Int) (b : MovementBaseline) :
    baselineSteps pov dx dy b = none ↔ ∀ q : Rat, ¬ PathingMatch pov dx dy b q := by
  constructor
  · intro h q hq
    have hsome := (baselineSteps_some_iff pov hpov dx dy b q).mpr hq
    rw [h] at hsome
    exact Option.noConfusion hsome
  · intro h
    cases hs : baselineSteps pov dx dy b with
    | none => rfl
    | some s => exact absurd ((baselineSteps_some_iff pov hpov dx dy b s).mp hs) (h s)

/-- Claim C3 (amended): `is_valid_pathing` returns `None` iff no baseline
in the piece's active move list admits a rational step count - no
integrality is enforced, so fractional counts like 1/2 qualify, a
step-limited baseline accepts any count at most 1 (including 0), and the
two degenerate skips of the flattening apply - and otherwise it returns
the first baseline in list order admitting such a count, paired with that
(possibly fractional or zero) count. -/
theorem pathing_resolver_rational_characterization
    (piece : Piece) (board_black : Option Player) (ini fin : Int × Int) :
    (is_valid_pathing piece board_black ini fin = none ↔
      ∀ b ∈ piece.moves_in_use, ∀ q : Rat,
        ¬ PathingMatch (povOf piece.player board_black)
          (fin.1 - ini.1) (fin.2 - ini.2) b q) ∧
    (∀ b s, is_valid_pathing piece board_black ini fin = some (b, s) →
      PathingMatch (povOf piece.player board_black)
        (fin.1 - ini.1) (fin.2 - ini.2) b s ∧
      ∃ l1 l2, piece.moves_in_use = l1 ++ b :: l2 ∧
        ∀ b2 ∈ l1, ∀ q : Rat,
          ¬ PathingMatch (povOf piece.player board_black)
            (fin.1 - ini.1) (fin.2 - ini.2) b2 q) := by
  have hpov := povOf_unit piece.player board_black
  have hshow : is_valid_pathing piece board_black ini fin
      = piece.moves_in_use.findSome? fun b =>
          (baselineSteps (povOf piece.player board_black)
            (fin.1 - ini.1) (fin.2 - ini.2) b).map fun s => (b, s) := rfl
  constructor
  · rw [hshow, list_findSome?_eq_none]
    constructor
    · intro h b hb q hq
      have hmap := h b hb
      rw [Option.map_eq_none'] at hmap
      exact (baselineSteps_none_iff _ hpov _ _ b).mp hmap q hq
    · intro h b hb
      rw [Option.map_eq_none']
      exact (baselineSteps_none_iff _ hpov _ _ b).mpr (h b hb)
  · intro b s h
    rw [hshow] at h
    obtain ⟨l1, a, l2, hsplit, hpre, hfa⟩ := list_findSome?_eq_some _ _ _ h
    rw [Option.map_eq_some'] at hfa
    obtain ⟨s0, hs0, heq⟩ := hfa
    have hab : a = b := congrArg Prod.fst heq
    have hsb : s0 = s := congrArg Prod.snd heq
    subst hab
    subst hsb
    refine ⟨(baselineSteps_some_iff _ hpov _ _ _ s0).mp hs0, l1, l2, hsplit, ?_⟩
    intro b2 hb2 q hq
    have hmap := hpre b2 hb2
    rw [Option.map_eq_none'] at hmap
    exact (baselineSteps_none_iff _ hpov _ _ b2).mp hmap q hq

/-- Witness for claim C3 (amended): the standard pawn from the junior
(black) side at (6,0) pathing to (5,0) - the characterization applied at
this concrete input yields an eligible step count of 1 for the single
forward baseline. -/
theorem pathing_resolver_rational_characterization_witness :
    PathingMatch (povOf (some Player.junior) (some Player.junior))
      ((5 : Int) - 6) ((0 : Int) - 0) ⟨-1, 0, true, false⟩ 1 := by
  have h :=
    (pathing_resolver_rational_characterization
      (mkPiece 20 PieceKind.pawn Player.junior) (some Player.junior) (6, 0) (5, 0)).2
      ⟨-1, 0, true, false⟩ 1 (by with_unfolding_all decide)
  exact h.1

/-- Claim C3 counterexample: a piece owning the single unlimited baseline
(2,0) moving one cell: the code returns that baseline with the
non-integral step count 1/2, whereas the claim requires `None` when no
non-negative integer step count matches (and calls any returned step
count integral). -/
theorem pathing_resolver_returns_fractional_step :
    is_valid_pathing fracPiece (some Player.junior) (0, 0) (1, 0)
      = some (⟨2, 0, false, false⟩, (1 : Rat) / 2) ∧
    ((1 : Rat) / 2).den ≠ 1 := by
  constructor
  · with_unfolding_all decide
  · with_unfolding_all decide
